import Mathlib

/-!
# Backend-bucket accessors of the GCE cloud provider

A shallow embedding of `pkg/cloudprovider/providers/gce/gce_backendbucket.go`.

The eleven methods of `GCECloud` in that file are translated one by one into
functions in a small state-and-abort monad `Exec`.  The collaborators the file
calls but does not define (the remote sub-clients behind `gce.c`, the
call-scope provider `cloud.ContextWithCallTimeout`, the clock, the string
constants naming the API versions) are inputs of the model: every theorem is
quantified over them.  Everything observable that a call does is appended to a
trace: acquiring and releasing the call scope, each invocation of a remote
sub-client, each metric observation.
-/

namespace gce

/-! ## Values exchanged with the collaborators -/

/-- Error classes of the error taxonomy. -/
inductive ErrorKind where
  | InvalidArgument
  | UnsupportedVersion
  | NotFound
  | Conflict
  | DeadlineExceeded
  | Cancelled
  | Transient
  | Unknown
  deriving DecidableEq, Repr

/-- A Go `error` value: its class and its message. A nil `error` is `none : Option Error`. -/
structure Error where
  kind : ErrorKind
  msg : String
  deriving DecidableEq, Repr

/-- The three API surfaces of the remote API. -/
inductive Version where
  | stable
  | beta
  | alpha
  deriving DecidableEq, Repr

/-- The five operations of a remote sub-client. -/
inductive Op where
  | Get
  | List
  | Insert
  | Update
  | Delete
  deriving DecidableEq, Repr

/-- Why a Go call stopped without returning. -/
inductive Panic where
  | nilDereference
  | other (msg : String)
  deriving DecidableEq, Repr

/-- A Go call either returns a value or panics. -/
inductive Outcome (α : Type) where
  | ret (a : α)
  | abort (p : Panic)
  deriving DecidableEq, Repr

/-- Applying a function to the value a call returned; a panic stays the panic. -/
def Outcome.map {α β : Type} (f : α → β) : Outcome α → Outcome β
  | .ret a => .ret (f a)
  | .abort p => .abort p

end gce

/-! ## The payload types of the three generated API packages -/

namespace compute

/-- The v1 `compute.BackendBucket` record; the facade reads only `Name`. -/
structure BackendBucket where
  Name : String
  BucketName : String
  Description : String
  EnableCdn : Bool
  deriving DecidableEq, Repr

end compute

namespace computebeta

/-- The beta `computebeta.BackendBucket` record; the facade reads only `Name`. -/
structure BackendBucket where
  Name : String
  BucketName : String
  Description : String
  EnableCdn : Bool
  deriving DecidableEq, Repr

end computebeta

namespace computealpha

/-- The alpha `computealpha.BackendBucket` record; the facade reads only `Name`. -/
structure BackendBucket where
  Name : String
  BucketName : String
  Description : String
  EnableCdn : Bool
  deriving DecidableEq, Repr

end computealpha

namespace gce

namespace meta

/-- Modelled from the spec: the addressing scope of a `ResourceKey` (package `cloud/meta`
is not part of the listing). -/
inductive Scope where
  | Global
  | Regional (region : String)
  | Zonal (zone : String)
  deriving DecidableEq, Repr

/-- Modelled from the spec: `meta.Key`, the `ResourceKey` of the data model, a scope and a
name (package `cloud/meta` is not part of the listing). -/
structure Key where
  scope : Scope
  name : String
  deriving DecidableEq, Repr

/-- Modelled from the spec: `meta.GlobalKey`, the global-scope key of a name (package
`cloud/meta` is not part of the listing). The spec lets key construction fail on an empty
name. Every call site in the listing passes `meta.GlobalKey(x)` as one argument among
several, which Go allows only for a function with a single result, so there is no error
result that a method of the listing could receive or return: the key builder is modelled
as yielding a key for every name, and nothing below rests on what that key looks like
beyond its being the key of that name. -/
def GlobalKey (name : String) : Key :=
  { scope := .Global, name := name }

end meta

namespace filter

/-- Modelled from the spec: the filter predicate a `List` call accepts (package
`cloud/filter` is not part of the listing): match-all, or a condition on a field. -/
inductive F where
  | matchAll
  | Regexp (fieldName : String) (expr : String)
  deriving DecidableEq, Repr

/-- Modelled from the spec: `filter.None`, the match-all filter (package `cloud/filter` is
not part of the listing). -/
def None : F := F.matchAll

end filter

/-- The call scope handed out by the call-scope provider: which acquisition it is, and
whether it was already expired when handed out. -/
structure Context where
  id : Nat
  expired : Bool
  deriving DecidableEq, Repr

/-- A payload pointer of one of the three versions, as forwarded to a sub-client. -/
inductive Payload where
  | stable (bg : Option compute.BackendBucket)
  | beta (bg : Option computebeta.BackendBucket)
  | alpha (bg : Option computealpha.BackendBucket)
  deriving DecidableEq, Repr

/-- One invocation of a remote sub-client: the sub-client's version and the arguments. -/
inductive RemoteCall where
  | Get (ver : Version) (ctx : Context) (key : meta.Key)
  | List (ver : Version) (ctx : Context) (fl : filter.F)
  | Insert (ver : Version) (ctx : Context) (key : meta.Key) (obj : Payload)
  | Update (ver : Version) (ctx : Context) (key : meta.Key) (obj : Payload)
  | Delete (ver : Version) (ctx : Context) (key : meta.Key)
  deriving DecidableEq, Repr

/-- Outcome tag of an observation. -/
inductive Result where
  | success
  | failure (kind : ErrorKind)
  deriving DecidableEq, Repr

/-- What the metric sink receives from one `Observe`. -/
structure Observation where
  resourceKind : String
  operation : String
  region : String
  zone : String
  version : String
  result : Result
  duration : Nat
  deriving DecidableEq, Repr

/-- Everything a facade call does that a collaborator can see. -/
inductive Event where
  | acquire (ctx : Context)
  | release (id : Nat)
  | remote (call : RemoteCall) (reply : Outcome (Option Error))
  | observe (o : Observation)
  deriving DecidableEq, Repr

/-! ## The collaborators -/

/-- The operation surface of one remote sub-client, as a stub: what each operation gives
back for its arguments. `BB` is the payload type of the sub-client's version. -/
structure BackendBucketsStub (BB : Type) where
  Get : Context → meta.Key → Outcome (Option BB × Option Error)
  List : Context → filter.F → Outcome (List (Option BB) × Option Error)
  Insert : Context → meta.Key → Option BB → Outcome (Option Error)
  Update : Context → meta.Key → Option BB → Outcome (Option Error)
  Delete : Context → meta.Key → Outcome (Option Error)

/-- The `cloud.Cloud` behind `gce.c`: one sub-client per version. -/
structure Cloud where
  backendBuckets : BackendBucketsStub compute.BackendBucket
  betaBackendBuckets : BackendBucketsStub computebeta.BackendBucket
  alphaBackendBuckets : BackendBucketsStub computealpha.BackendBucket

/-- The receiver of the facade methods; of its fields only `c` is used by this file. -/
structure GCECloud where
  c : Cloud

/-- Package-level collaborators and constants declared outside the listing: the version
strings and the unused-label string of the metrics code, the call-scope provider (whether
the n-th scope it hands out is already expired) and the clock (the time at its n-th
reading). -/
structure Env where
  computeV1Version : String
  computeBetaVersion : String
  computeAlphaVersion : String
  unusedMetricLabel : String
  scopeExpired : Nat → Bool
  clock : Nat → Nat

/-- The state the collaborators hold between calls. -/
structure World where
  nextScope : Nat
  live : List Nat
  ticks : Nat
  trace : List Event
  deriving DecidableEq, Repr

/-! ## Execution -/

/-- A Go function body: reads the environment, changes the world, returns or panics. -/
def Exec (α : Type) : Type := Env → World → Outcome α × World

/-- Returning a value changes nothing. -/
def Exec.pure {α : Type} (a : α) : Exec α := fun _ w => (.ret a, w)

/-- Sequencing: a panic in the first part skips the rest. -/
def Exec.bind {α β : Type} (x : Exec α) (f : α → Exec β) : Exec β := fun E w =>
  match x E w with
  | (.ret a, w1) => f a E w1
  | (.abort p, w1) => (.abort p, w1)

instance : Monad Exec where
  pure := Exec.pure
  bind := Exec.bind

/-- Go `defer`: the deferred function runs when the body ends, whether the body returned or
panicked, and the body's outcome is what the function gives back. -/
def defer {α : Type} (deferred : World → World) (body : Exec α) : Exec α := fun E w =>
  match body E w with
  | (r, w1) => (r, deferred w1)

/-- Reading a field through a pointer: a nil pointer panics. -/
def deref {α β : Type} (p : Option α) (field : α → β) : Exec β := fun _ w =>
  match p with
  | some a => (.ret (field a), w)
  | none => (.abort .nilDereference, w)

/-- Reading the clock. -/
def timeNow : Exec Nat := fun E w =>
  (.ret (E.clock w.ticks), { w with ticks := w.ticks + 1 })

/-- Invoking a remote sub-client: the invocation and the error part of its reply are
logged, and the reply (or the panic) is handed to the caller. -/
def remote {α : Type} (call : RemoteCall) (reply : Outcome α) (errOf : α → Option Error) :
    Exec α := fun _ w =>
  (reply, { w with trace := w.trace ++ [Event.remote call (reply.map errOf)] })

namespace cloud

/-- The call scope the provider hands out next. -/
def nextContext (E : Env) (w : World) : Context :=
  { id := w.nextScope, expired := E.scopeExpired w.nextScope }

/-- The cancel function of a call scope: releases it; running it again does nothing. -/
def cancel (ctx : Context) (w : World) : World :=
  if ctx.id ∈ w.live then
    { w with live := w.live.erase ctx.id, trace := w.trace ++ [Event.release ctx.id] }
  else w

/-- Modelled from the spec: `cloud.ContextWithCallTimeout`, the call-scope provider
(package `cloud` is not part of the listing). It supplies a cancellable, deadline-bounded
scope on demand, together with its cancel function. -/
def ContextWithCallTimeout : Exec (Context × (World → World)) := fun E w =>
  let ctx := nextContext E w
  (.ret (ctx, cancel ctx),
    { w with nextScope := w.nextScope + 1, live := ctx.id :: w.live,
             trace := w.trace ++ [Event.acquire ctx] })

end cloud

/-- A sub-client as the facade sees it: the stub, the version it serves, and how its
payload pointers appear in the log. -/
structure Client (BB : Type) where
  ver : Version
  stub : BackendBucketsStub BB
  wrap : Option BB → Payload

/-- Corresponds to `Get(ctx, key)` on a sub-client. -/
def Client.Get {BB : Type} (cl : Client BB) (ctx : Context) (key : meta.Key) :
    Exec (Option BB × Option Error) :=
  remote (.Get cl.ver ctx key) (cl.stub.Get ctx key) Prod.snd

/-- Corresponds to `List(ctx, fl)` on a sub-client. -/
def Client.List {BB : Type} (cl : Client BB) (ctx : Context) (fl : filter.F) :
    Exec (List (Option BB) × Option Error) :=
  remote (.List cl.ver ctx fl) (cl.stub.List ctx fl) Prod.snd

/-- Corresponds to `Insert(ctx, key, obj)` on a sub-client. -/
def Client.Insert {BB : Type} (cl : Client BB) (ctx : Context) (key : meta.Key)
    (obj : Option BB) : Exec (Option Error) :=
  remote (.Insert cl.ver ctx key (cl.wrap obj)) (cl.stub.Insert ctx key obj) id

/-- Corresponds to `Update(ctx, key, obj)` on a sub-client. -/
def Client.Update {BB : Type} (cl : Client BB) (ctx : Context) (key : meta.Key)
    (obj : Option BB) : Exec (Option Error) :=
  remote (.Update cl.ver ctx key (cl.wrap obj)) (cl.stub.Update ctx key obj) id

/-- Corresponds to `Delete(ctx, key)` on a sub-client. -/
def Client.Delete {BB : Type} (cl : Client BB) (ctx : Context) (key : meta.Key) :
    Exec (Option Error) :=
  remote (.Delete cl.ver ctx key) (cl.stub.Delete ctx key) id

/-- Corresponds to `gce.c.BackendBuckets()`: the stable sub-client. -/
def Cloud.BackendBuckets (c : Cloud) : Client compute.BackendBucket :=
  { ver := .stable, stub := c.backendBuckets, wrap := Payload.stable }

/-- Corresponds to `gce.c.BetaBackendBuckets()`: the beta sub-client. -/
def Cloud.BetaBackendBuckets (c : Cloud) : Client computebeta.BackendBucket :=
  { ver := .beta, stub := c.betaBackendBuckets, wrap := Payload.beta }

/-- Corresponds to `gce.c.AlphaBackendBuckets()`: the alpha sub-client. -/
def Cloud.AlphaBackendBuckets (c : Cloud) : Client computealpha.BackendBucket :=
  { ver := .alpha, stub := c.alphaBackendBuckets, wrap := Payload.alpha }

/-! ## Metric context -/

/-- Modelled from the spec: the `metricContext` of the metrics code (not part of the
listing): the labels given at creation and the start time. -/
structure metricContext where
  resourceKind : String
  request : String
  region : String
  zone : String
  version : String
  start : Nat
  deriving DecidableEq, Repr

/-- Modelled from the spec: `newGenericMetricContext` (not part of the listing) captures
its five labels and the time of creation. -/
def newGenericMetricContext (resourceKind request region zone version : String) :
    Exec metricContext := fun E w =>
  match timeNow E w with
  | (.ret t, w1) =>
    (.ret { resourceKind := resourceKind, request := request, region := region,
            zone := zone, version := version, start := t }, w1)
  | (.abort p, w1) => (.abort p, w1)

/-- Modelled from the spec: `Observe` (not part of the listing) records one success or one
failure-by-error-class observation with the elapsed duration, tagged with the labels of the
context, and returns the same error untouched. -/
def metricContext.Observe (mc : metricContext) (err : Option Error) : Exec (Option Error) :=
  fun E w =>
  match timeNow E w with
  | (.ret t, w1) =>
    let o : Observation :=
      { resourceKind := mc.resourceKind, operation := mc.request, region := mc.region,
        zone := mc.zone, version := mc.version,
        result := (match err with
          | none => Result.success
          | some e => Result.failure e.kind),
        duration := t - mc.start }
    (.ret err, { w1 with trace := w1.trace ++ [Event.observe o] })
  | (.abort p, w1) => (.abort p, w1)

/-- The package constant `computeV1Version`, declared outside the listing. -/
def computeV1Version : Exec String := fun E w => (.ret E.computeV1Version, w)

/-- The package constant `computeBetaVersion`, declared outside the listing. -/
def computeBetaVersion : Exec String := fun E w => (.ret E.computeBetaVersion, w)

/-- The package constant `computeAlphaVersion`, declared outside the listing. -/
def computeAlphaVersion : Exec String := fun E w => (.ret E.computeAlphaVersion, w)

/-- The package constant `unusedMetricLabel`, declared outside the listing. -/
def unusedMetricLabel : Exec String := fun E w => (.ret E.unusedMetricLabel, w)

/-- Source: `newBackendBucketMetricContextWithVersion`. -/
def newBackendBucketMetricContextWithVersion (request region version : String) :
    Exec metricContext := do
  newGenericMetricContext "backendbucket" request region (← unusedMetricLabel) version

/-- Source: `newBackendBucketMetricContext`. -/
def newBackendBucketMetricContext (request region : String) : Exec metricContext := do
  newBackendBucketMetricContextWithVersion request region (← computeV1Version)

/-! ## The facade methods, in the order of the listing -/

/-- GetBackendBucket retrieves a backend by name. -/
def GCECloud.GetBackendBucket (gce : GCECloud) (name : String) :
    Exec (Option compute.BackendBucket × Option Error) := do
  let (ctx, cancel) ← cloud.ContextWithCallTimeout
  defer cancel do
    let mc ← newBackendBucketMetricContext "get" ""
    let (v, err) ← gce.c.BackendBuckets.Get ctx (meta.GlobalKey name)
    return (v, ← mc.Observe err)

/-- GetBetaBackendBucket retrieves beta backend by name. -/
def GCECloud.GetBetaBackendBucket (gce : GCECloud) (name : String) :
    Exec (Option computebeta.BackendBucket × Option Error) := do
  let (ctx, cancel) ← cloud.ContextWithCallTimeout
  defer cancel do
    let mc ← newBackendBucketMetricContextWithVersion "get" "" (← computeBetaVersion)
    let (v, err) ← gce.c.BetaBackendBuckets.Get ctx (meta.GlobalKey name)
    return (v, ← mc.Observe err)

/-- GetAlphaBackendBucket retrieves alpha backend by name. -/
def GCECloud.GetAlphaBackendBucket (gce : GCECloud) (name : String) :
    Exec (Option computealpha.BackendBucket × Option Error) := do
  let (ctx, cancel) ← cloud.ContextWithCallTimeout
  defer cancel do
    let mc ← newBackendBucketMetricContextWithVersion "get" "" (← computeAlphaVersion)
    let (v, err) ← gce.c.AlphaBackendBuckets.Get ctx (meta.GlobalKey name)
    return (v, ← mc.Observe err)

/-- UpdateBackendBucket applies the given BackendBucket as an update to an existing
bucket. -/
def GCECloud.UpdateBackendBucket (gce : GCECloud) (bg : Option compute.BackendBucket) :
    Exec (Option Error) := do
  let (ctx, cancel) ← cloud.ContextWithCallTimeout
  defer cancel do
    let mc ← newBackendBucketMetricContext "update" ""
    mc.Observe (← gce.c.BackendBuckets.Update ctx (meta.GlobalKey (← deref bg (·.Name))) bg)

/-- UpdateBetaBackendBucket applies the given beta BackendBucket as an update to an existing
bucket. -/
def GCECloud.UpdateBetaBackendBucket (gce : GCECloud)
    (bg : Option computebeta.BackendBucket) : Exec (Option Error) := do
  let (ctx, cancel) ← cloud.ContextWithCallTimeout
  defer cancel do
    let mc ← newBackendBucketMetricContextWithVersion "update" "" (← computeBetaVersion)
    mc.Observe (← gce.c.BetaBackendBuckets.Update ctx (meta.GlobalKey (← deref bg (·.Name))) bg)

/-- UpdateAlphaBackendBucket applies the given alpha BackendBucket as an update to an
existing bucket. -/
def GCECloud.UpdateAlphaBackendBucket (gce : GCECloud)
    (bg : Option computealpha.BackendBucket) : Exec (Option Error) := do
  let (ctx, cancel) ← cloud.ContextWithCallTimeout
  defer cancel do
    let mc ← newBackendBucketMetricContextWithVersion "update" "" (← computeAlphaVersion)
    mc.Observe (← gce.c.AlphaBackendBuckets.Update ctx (meta.GlobalKey (← deref bg (·.Name))) bg)

/-- DeleteBackendBucket deletes the given BackendBucket by name. -/
def GCECloud.DeleteBackendBucket (gce : GCECloud) (name : String) : Exec (Option Error) := do
  let (ctx, cancel) ← cloud.ContextWithCallTimeout
  defer cancel do
    let mc ← newBackendBucketMetricContext "delete" ""
    mc.Observe (← gce.c.BackendBuckets.Delete ctx (meta.GlobalKey name))

/-- CreateBackendBucket creates the given BackendBucket. -/
def GCECloud.CreateBackendBucket (gce : GCECloud) (bg : Option compute.BackendBucket) :
    Exec (Option Error) := do
  let (ctx, cancel) ← cloud.ContextWithCallTimeout
  defer cancel do
    let mc ← newBackendBucketMetricContext "create" ""
    mc.Observe (← gce.c.BackendBuckets.Insert ctx (meta.GlobalKey (← deref bg (·.Name))) bg)

/-- CreateBetaBackendBucket creates the given beta BackendBucket. -/
def GCECloud.CreateBetaBackendBucket (gce : GCECloud)
    (bg : Option computebeta.BackendBucket) : Exec (Option Error) := do
  let (ctx, cancel) ← cloud.ContextWithCallTimeout
  defer cancel do
    let mc ← newBackendBucketMetricContextWithVersion "create" "" (← computeBetaVersion)
    mc.Observe (← gce.c.BetaBackendBuckets.Insert ctx (meta.GlobalKey (← deref bg (·.Name))) bg)

/-- CreateAlphaBackendBucket creates the given alpha BackendBucket. -/
def GCECloud.CreateAlphaBackendBucket (gce : GCECloud)
    (bg : Option computealpha.BackendBucket) : Exec (Option Error) := do
  let (ctx, cancel) ← cloud.ContextWithCallTimeout
  defer cancel do
    let mc ← newBackendBucketMetricContextWithVersion "create" "" (← computeAlphaVersion)
    mc.Observe (← gce.c.AlphaBackendBuckets.Insert ctx (meta.GlobalKey (← deref bg (·.Name))) bg)

/-- ListBackendBuckets lists all backend buckets in the project. -/
def GCECloud.ListBackendBuckets (gce : GCECloud) :
    Exec (List (Option compute.BackendBucket) × Option Error) := do
  let (ctx, cancel) ← cloud.ContextWithCallTimeout
  defer cancel do
    let mc ← newBackendBucketMetricContext "list" ""
    let (v, err) ← gce.c.BackendBuckets.List ctx filter.None
    return (v, ← mc.Observe err)

/-! ## The public surface as one type -/

/-- A call of one of the facade methods of the listing, with its argument. -/
inductive Call where
  | GetBackendBucket (name : String)
  | GetBetaBackendBucket (name : String)
  | GetAlphaBackendBucket (name : String)
  | UpdateBackendBucket (bg : Option compute.BackendBucket)
  | UpdateBetaBackendBucket (bg : Option computebeta.BackendBucket)
  | UpdateAlphaBackendBucket (bg : Option computealpha.BackendBucket)
  | DeleteBackendBucket (name : String)
  | CreateBackendBucket (bg : Option compute.BackendBucket)
  | CreateBetaBackendBucket (bg : Option computebeta.BackendBucket)
  | CreateAlphaBackendBucket (bg : Option computealpha.BackendBucket)
  | ListBackendBuckets
  deriving DecidableEq, Repr

/-- What a facade method returned: the value, if its signature has one, and the error. -/
inductive Returned where
  | stable (v : Option compute.BackendBucket) (err : Option Error)
  | beta (v : Option computebeta.BackendBucket) (err : Option Error)
  | alpha (v : Option computealpha.BackendBucket) (err : Option Error)
  | list (v : List (Option compute.BackendBucket)) (err : Option Error)
  | error (err : Option Error)
  deriving DecidableEq, Repr

/-- The error result of a facade method. -/
def Returned.err : Returned → Option Error
  | .stable _ e => e
  | .beta _ e => e
  | .alpha _ e => e
  | .list _ e => e
  | .error e => e

/-- Running the method a call names, on the receiver `gce`. -/
def GCECloud.call (gce : GCECloud) : Call → Exec Returned
  | .GetBackendBucket name => do
    let (v, err) ← gce.GetBackendBucket name
    return .stable v err
  | .GetBetaBackendBucket name => do
    let (v, err) ← gce.GetBetaBackendBucket name
    return .beta v err
  | .GetAlphaBackendBucket name => do
    let (v, err) ← gce.GetAlphaBackendBucket name
    return .alpha v err
  | .UpdateBackendBucket bg => do return .error (← gce.UpdateBackendBucket bg)
  | .UpdateBetaBackendBucket bg => do return .error (← gce.UpdateBetaBackendBucket bg)
  | .UpdateAlphaBackendBucket bg => do return .error (← gce.UpdateAlphaBackendBucket bg)
  | .DeleteBackendBucket name => do return .error (← gce.DeleteBackendBucket name)
  | .CreateBackendBucket bg => do return .error (← gce.CreateBackendBucket bg)
  | .CreateBetaBackendBucket bg => do return .error (← gce.CreateBetaBackendBucket bg)
  | .CreateAlphaBackendBucket bg => do return .error (← gce.CreateAlphaBackendBucket bg)
  | .ListBackendBuckets => do
    let (v, err) ← gce.ListBackendBuckets
    return .list v err

/-- The outcome of a facade call made in world `w`. -/
def outcome (gce : GCECloud) (E : Env) (w : World) (c : Call) : Outcome Returned :=
  (gce.call c E w).1

/-- The world a facade call made in world `w` leaves behind. -/
def after (gce : GCECloud) (E : Env) (w : World) (c : Call) : World :=
  (gce.call c E w).2

/-- The events a facade call made in world `w` adds to the trace, oldest first. -/
def events (gce : GCECloud) (E : Env) (w : World) (c : Call) : List Event :=
  (after gce E w c).trace.drop w.trace.length

/-! ## Reading a trace -/

/-- The remote invocations of a trace, in order. -/
def remoteCalls : List Event → List RemoteCall
  | [] => []
  | .remote call _ :: evs => call :: remoteCalls evs
  | _ :: evs => remoteCalls evs

/-- The observations of a trace, in order. -/
def observations : List Event → List Observation
  | [] => []
  | .observe o :: evs => o :: observations evs
  | _ :: evs => observations evs

/-- The call scopes a trace acquires, in order. -/
def acquired : List Event → List Context
  | [] => []
  | .acquire ctx :: evs => ctx :: acquired evs
  | _ :: evs => acquired evs

/-- The call scopes a trace releases, in order. -/
def released : List Event → List Nat
  | [] => []
  | .release i :: evs => i :: released evs
  | _ :: evs => released evs

/-- Whether some remote invocation of a trace ended in a panic instead of a return. -/
def remoteAborted : List Event → Bool
  | [] => false
  | .remote _ (.abort _) :: _ => true
  | _ :: evs => remoteAborted evs

/-- The sub-client version a remote invocation was made on. -/
def RemoteCall.ver : RemoteCall → Version
  | .Get v _ _ => v
  | .List v _ _ => v
  | .Insert v _ _ _ => v
  | .Update v _ _ _ => v
  | .Delete v _ _ => v

/-- The operation of a remote invocation. -/
def RemoteCall.op : RemoteCall → Op
  | .Get _ _ _ => .Get
  | .List _ _ _ => .List
  | .Insert _ _ _ _ => .Insert
  | .Update _ _ _ _ => .Update
  | .Delete _ _ _ => .Delete

/-- The call scope a remote invocation was made in. -/
def RemoteCall.ctx : RemoteCall → Context
  | .Get _ c _ => c
  | .List _ c _ => c
  | .Insert _ c _ _ => c
  | .Update _ c _ _ => c
  | .Delete _ c _ => c

/-- Whether a call hands a nil payload pointer to a payload-taking method. -/
def Call.nilPayload : Call → Bool
  | .UpdateBackendBucket none => true
  | .UpdateBetaBackendBucket none => true
  | .UpdateAlphaBackendBucket none => true
  | .CreateBackendBucket none => true
  | .CreateBetaBackendBucket none => true
  | .CreateAlphaBackendBucket none => true
  | _ => false

/-- Whether a call is of one of the six payload-taking methods. -/
def Call.takesPayload : Call → Bool
  | .UpdateBackendBucket _ => true
  | .UpdateBetaBackendBucket _ => true
  | .UpdateAlphaBackendBucket _ => true
  | .CreateBackendBucket _ => true
  | .CreateBetaBackendBucket _ => true
  | .CreateAlphaBackendBucket _ => true
  | _ => false

/-- A world in which nothing has happened yet. -/
def World.initial : World :=
  { nextScope := 0, live := [], ticks := 0, trace := [] }

/-! ## What the listing says each method does, as tables

These follow the text of the methods: the label each passes to its metric context, the
sub-client it names, and the remote invocation it spells out. The theorems below compare
them with what running the method does. -/

/-- The operation label a method passes to its metric context. -/
def Call.request : Call → String
  | .GetBackendBucket _ => "get"
  | .GetBetaBackendBucket _ => "get"
  | .GetAlphaBackendBucket _ => "get"
  | .UpdateBackendBucket _ => "update"
  | .UpdateBetaBackendBucket _ => "update"
  | .UpdateAlphaBackendBucket _ => "update"
  | .DeleteBackendBucket _ => "delete"
  | .CreateBackendBucket _ => "create"
  | .CreateBetaBackendBucket _ => "create"
  | .CreateAlphaBackendBucket _ => "create"
  | .ListBackendBuckets => "list"

/-- The version a method is written for. -/
def Call.version : Call → Version
  | .GetBackendBucket _ => .stable
  | .GetBetaBackendBucket _ => .beta
  | .GetAlphaBackendBucket _ => .alpha
  | .UpdateBackendBucket _ => .stable
  | .UpdateBetaBackendBucket _ => .beta
  | .UpdateAlphaBackendBucket _ => .alpha
  | .DeleteBackendBucket _ => .stable
  | .CreateBackendBucket _ => .stable
  | .CreateBetaBackendBucket _ => .beta
  | .CreateAlphaBackendBucket _ => .alpha
  | .ListBackendBuckets => .stable

/-- The version string that tags observations of a version. -/
def Env.versionLabel (E : Env) : Version → String
  | .stable => E.computeV1Version
  | .beta => E.computeBetaVersion
  | .alpha => E.computeAlphaVersion

/-- The remote invocation a call is to make in call scope `ctx`: none for a nil payload. -/
def Call.expectedRemote (ctx : Context) : Call → Option RemoteCall
  | .GetBackendBucket name => some (.Get .stable ctx (meta.GlobalKey name))
  | .GetBetaBackendBucket name => some (.Get .beta ctx (meta.GlobalKey name))
  | .GetAlphaBackendBucket name => some (.Get .alpha ctx (meta.GlobalKey name))
  | .UpdateBackendBucket (some bg) =>
    some (.Update .stable ctx (meta.GlobalKey bg.Name) (.stable (some bg)))
  | .UpdateBetaBackendBucket (some bg) =>
    some (.Update .beta ctx (meta.GlobalKey bg.Name) (.beta (some bg)))
  | .UpdateAlphaBackendBucket (some bg) =>
    some (.Update .alpha ctx (meta.GlobalKey bg.Name) (.alpha (some bg)))
  | .DeleteBackendBucket name => some (.Delete .stable ctx (meta.GlobalKey name))
  | .CreateBackendBucket (some bg) =>
    some (.Insert .stable ctx (meta.GlobalKey bg.Name) (.stable (some bg)))
  | .CreateBetaBackendBucket (some bg) =>
    some (.Insert .beta ctx (meta.GlobalKey bg.Name) (.beta (some bg)))
  | .CreateAlphaBackendBucket (some bg) =>
    some (.Insert .alpha ctx (meta.GlobalKey bg.Name) (.alpha (some bg)))
  | .ListBackendBuckets => some (.List .stable ctx filter.None)
  | _ => none

/-- What the sub-client a method names answers when it is invoked the way the text of the
method spells out: in call scope `ctx`, on the global key of the name or of the payload's
`Name`, with the caller's payload pointer, or with `filter.None` for a `List`. The answer is
given in the shape of the method's own result. There is none for a nil payload, whose
`Name` cannot be read. -/
def Call.remoteAnswer (gce : GCECloud) (ctx : Context) : Call → Option (Outcome Returned)
  | .GetBackendBucket name =>
    some ((gce.c.backendBuckets.Get ctx (meta.GlobalKey name)).map
      fun r => Returned.stable r.1 r.2)
  | .GetBetaBackendBucket name =>
    some ((gce.c.betaBackendBuckets.Get ctx (meta.GlobalKey name)).map
      fun r => Returned.beta r.1 r.2)
  | .GetAlphaBackendBucket name =>
    some ((gce.c.alphaBackendBuckets.Get ctx (meta.GlobalKey name)).map
      fun r => Returned.alpha r.1 r.2)
  | .UpdateBackendBucket (some bg) =>
    some ((gce.c.backendBuckets.Update ctx (meta.GlobalKey bg.Name) (some bg)).map
      Returned.error)
  | .UpdateBetaBackendBucket (some bg) =>
    some ((gce.c.betaBackendBuckets.Update ctx (meta.GlobalKey bg.Name) (some bg)).map
      Returned.error)
  | .UpdateAlphaBackendBucket (some bg) =>
    some ((gce.c.alphaBackendBuckets.Update ctx (meta.GlobalKey bg.Name) (some bg)).map
      Returned.error)
  | .DeleteBackendBucket name =>
    some ((gce.c.backendBuckets.Delete ctx (meta.GlobalKey name)).map Returned.error)
  | .CreateBackendBucket (some bg) =>
    some ((gce.c.backendBuckets.Insert ctx (meta.GlobalKey bg.Name) (some bg)).map
      Returned.error)
  | .CreateBetaBackendBucket (some bg) =>
    some ((gce.c.betaBackendBuckets.Insert ctx (meta.GlobalKey bg.Name) (some bg)).map
      Returned.error)
  | .CreateAlphaBackendBucket (some bg) =>
    some ((gce.c.alphaBackendBuckets.Insert ctx (meta.GlobalKey bg.Name) (some bg)).map
      Returned.error)
  | .ListBackendBuckets =>
    some ((gce.c.backendBuckets.List ctx filter.None).map fun r => Returned.list r.1 r.2)
  | _ => none

/-- The outcome tag of an observation made for an error result. -/
def resultOf : Option Error → Result
  | none => .success
  | some e => .failure e.kind

/-- The observation a call made in world `w` is to record when the remote gave back `err`. -/
def Call.expectedObservation (E : Env) (w : World) (c : Call) (err : Option Error) :
    Observation :=
  { resourceKind := "backendbucket", operation := c.request, region := "",
    zone := E.unusedMetricLabel, version := E.versionLabel c.version,
    result := resultOf err, duration := E.clock (w.ticks + 1) - E.clock w.ticks }

/-- The key a remote invocation addresses; a `List` addresses none. -/
def RemoteCall.key : RemoteCall → Option meta.Key
  | .Get _ _ k => some k
  | .List _ _ _ => none
  | .Insert _ _ k _ => some k
  | .Update _ _ k _ => some k
  | .Delete _ _ k => some k

/-- The name a call carries: its name argument, or the `Name` field of its payload. -/
def Call.name : Call → Option String
  | .GetBackendBucket name => some name
  | .GetBetaBackendBucket name => some name
  | .GetAlphaBackendBucket name => some name
  | .UpdateBackendBucket bg => bg.map (·.Name)
  | .UpdateBetaBackendBucket bg => bg.map (·.Name)
  | .UpdateAlphaBackendBucket bg => bg.map (·.Name)
  | .DeleteBackendBucket name => some name
  | .CreateBackendBucket bg => bg.map (·.Name)
  | .CreateBetaBackendBucket bg => bg.map (·.Name)
  | .CreateAlphaBackendBucket bg => bg.map (·.Name)
  | .ListBackendBuckets => none

/-- Whether an error result is of a given class. -/
def hasKind (k : ErrorKind) : Option Error → Bool
  | some e => e.kind == k
  | none => false

/-- Whether a call returned an error of a given class. -/
def returnedKind (k : ErrorKind) : Outcome Returned → Bool
  | .ret r => hasKind k r.err
  | .abort _ => false

/-- A call serves operation `O` of version `V` when, whatever the collaborators are, running
it invokes operation `O` on the sub-client of version `V`. -/
def serves (c : Call) (O : Op) (V : Version) : Prop :=
  ∀ (gce : GCECloud) (E : Env) (w : World),
    ∃ rc, rc ∈ remoteCalls (events gce E w c) ∧ rc.op = O ∧ rc.ver = V

/-! ## Test doubles -/

/-- A stub sub-client on which every operation succeeds; `Get` and `List` give back `b`. -/
def okStub (BB : Type) (b : BB) : BackendBucketsStub BB :=
  { Get := fun _ _ => .ret (some b, none)
    List := fun _ _ => .ret ([some b], none)
    Insert := fun _ _ _ => .ret none
    Update := fun _ _ _ => .ret none
    Delete := fun _ _ => .ret none }

/-- The error a stub reports for a missing resource. -/
def errNotFound : Error := { kind := .NotFound, msg := "missing" }

/-- A stub sub-client that knows no resource: every operation that addresses one reports
NotFound, and `List` gives back the empty list. -/
def notFoundStub (BB : Type) : BackendBucketsStub BB :=
  { Get := fun _ _ => .ret (none, some errNotFound)
    List := fun _ _ => .ret ([], none)
    Insert := fun _ _ _ => .ret (some errNotFound)
    Update := fun _ _ _ => .ret (some errNotFound)
    Delete := fun _ _ => .ret (some errNotFound) }

/-- The error a stub reports when it is asked in an expired call scope. -/
def errDeadline : Error := { kind := .DeadlineExceeded, msg := "context deadline exceeded" }

/-- A stub sub-client that honours the call scope: asked in an expired scope every
operation answers DeadlineExceeded, and otherwise it answers as `okStub` does. -/
def deadlineStub (BB : Type) (b : BB) : BackendBucketsStub BB :=
  { Get := fun ctx key =>
      if ctx.expired then .ret (none, some errDeadline) else (okStub BB b).Get ctx key
    List := fun ctx fl =>
      if ctx.expired then .ret ([], some errDeadline) else (okStub BB b).List ctx fl
    Insert := fun ctx key obj =>
      if ctx.expired then .ret (some errDeadline) else (okStub BB b).Insert ctx key obj
    Update := fun ctx key obj =>
      if ctx.expired then .ret (some errDeadline) else (okStub BB b).Update ctx key obj
    Delete := fun ctx key =>
      if ctx.expired then .ret (some errDeadline) else (okStub BB b).Delete ctx key }

/-- A v1 bucket named `x`. -/
def sampleBucket : compute.BackendBucket :=
  { Name := "x", BucketName := "data", Description := "", EnableCdn := false }

/-- A beta bucket named `x`. -/
def sampleBetaBucket : computebeta.BackendBucket :=
  { Name := "x", BucketName := "data", Description := "", EnableCdn := false }

/-- An alpha bucket named `x`. -/
def sampleAlphaBucket : computealpha.BackendBucket :=
  { Name := "x", BucketName := "data", Description := "", EnableCdn := false }

/-- A v1 bucket whose name is empty. -/
def unnamedBucket : compute.BackendBucket :=
  { Name := "", BucketName := "data", Description := "", EnableCdn := false }

/-- A receiver whose three sub-clients succeed. -/
def okCloud : GCECloud :=
  { c := { backendBuckets := okStub _ sampleBucket
           betaBackendBuckets := okStub _ sampleBetaBucket
           alphaBackendBuckets := okStub _ sampleAlphaBucket } }

/-- A receiver whose three sub-clients know no resource. -/
def notFoundCloud : GCECloud :=
  { c := { backendBuckets := notFoundStub _
           betaBackendBuckets := notFoundStub _
           alphaBackendBuckets := notFoundStub _ } }

/-- A receiver whose three sub-clients honour the call scope. -/
def deadlineCloud : GCECloud :=
  { c := { backendBuckets := deadlineStub _ sampleBucket
           betaBackendBuckets := deadlineStub _ sampleBetaBucket
           alphaBackendBuckets := deadlineStub _ sampleAlphaBucket } }

/-- An environment whose call scopes are fresh and whose clock advances by ten. -/
def sampleEnv : Env :=
  { computeV1Version := "v1", computeBetaVersion := "beta", computeAlphaVersion := "alpha",
    unusedMetricLabel := "<n/a>", scopeExpired := fun _ => false, clock := fun n => 10 * n }

/-- An environment whose call-scope provider hands out scopes that are already expired. -/
def expiredEnv : Env :=
  { sampleEnv with scopeExpired := fun _ => true }

/-! ## The shape of every call -/

/-- Every facade call acquires the next call scope and releases it, and between the two does
one of three things: aborts on a nil payload before anything else happens; invokes the
remote once and aborts because the remote did; or invokes the remote once, records one
observation of what the remote gave back, and returns. -/
theorem call_shape (gce : GCECloud) (E : Env) (w : World) (c : Call) :
    (after gce E w c).nextScope = w.nextScope + 1 ∧
    (after gce E w c).live = w.live ∧
    (after gce E w c).trace = w.trace ++ events gce E w c ∧
    ((c.expectedRemote (cloud.nextContext E w) = none ∧
        outcome gce E w c = .abort .nilDereference ∧
        events gce E w c =
          [.acquire (cloud.nextContext E w), .release (cloud.nextContext E w).id]) ∨
     (∃ rc p, c.expectedRemote (cloud.nextContext E w) = some rc ∧
        outcome gce E w c = .abort p ∧
        events gce E w c =
          [.acquire (cloud.nextContext E w), .remote rc (.abort p),
           .release (cloud.nextContext E w).id]) ∨
     (∃ rc r, c.expectedRemote (cloud.nextContext E w) = some rc ∧
        outcome gce E w c = .ret r ∧
        events gce E w c =
          [.acquire (cloud.nextContext E w), .remote rc (.ret r.err),
           .observe (c.expectedObservation E w r.err),
           .release (cloud.nextContext E w).id])) := by
  rcases c with n | n | n | (_ | bg) | (_ | bg) | (_ | bg) | n | (_ | bg) | (_ | bg) | (_ | bg) | _
  all_goals
    simp only [after, outcome, events, GCECloud.call, GCECloud.GetBackendBucket,
      GCECloud.GetBetaBackendBucket, GCECloud.GetAlphaBackendBucket,
      GCECloud.UpdateBackendBucket, GCECloud.UpdateBetaBackendBucket,
      GCECloud.UpdateAlphaBackendBucket, GCECloud.DeleteBackendBucket,
      GCECloud.CreateBackendBucket, GCECloud.CreateBetaBackendBucket,
      GCECloud.CreateAlphaBackendBucket, GCECloud.ListBackendBuckets,
      bind, Exec.bind, pure, Exec.pure, defer, deref,
      cloud.ContextWithCallTimeout, newBackendBucketMetricContext,
      newBackendBucketMetricContextWithVersion, newGenericMetricContext, timeNow,
      computeV1Version, computeBetaVersion, computeAlphaVersion, unusedMetricLabel,
      Client.Get, Client.List, Client.Insert, Client.Update, Client.Delete,
      Cloud.BackendBuckets, Cloud.BetaBackendBuckets, Cloud.AlphaBackendBuckets, remote,
      metricContext.Observe]
  on_goal 1 => generalize gce.c.backendBuckets.Get _ _ = reply
  on_goal 2 => generalize gce.c.betaBackendBuckets.Get _ _ = reply
  on_goal 3 => generalize gce.c.alphaBackendBuckets.Get _ _ = reply
  on_goal 5 => generalize gce.c.backendBuckets.Update _ _ _ = reply
  on_goal 7 => generalize gce.c.betaBackendBuckets.Update _ _ _ = reply
  on_goal 9 => generalize gce.c.alphaBackendBuckets.Update _ _ _ = reply
  on_goal 10 => generalize gce.c.backendBuckets.Delete _ _ = reply
  on_goal 12 => generalize gce.c.backendBuckets.Insert _ _ _ = reply
  on_goal 14 => generalize gce.c.betaBackendBuckets.Insert _ _ _ = reply
  on_goal 16 => generalize gce.c.alphaBackendBuckets.Insert _ _ _ = reply
  on_goal 17 => generalize gce.c.backendBuckets.List _ _ = reply
  all_goals
    first
    | (cases reply <;>
      simp [cloud.cancel, cloud.nextContext, Call.expectedRemote, Call.expectedObservation,
        Returned.err, Outcome.map, Call.request, Call.version, Env.versionLabel, resultOf,
        filter.None])
    | simp [cloud.cancel, cloud.nextContext, Call.expectedRemote, Call.expectedObservation,
      Returned.err, Outcome.map, Call.request, Call.version, Env.versionLabel, resultOf,
      filter.None]

/-- What a facade call gives back is what the sub-client answered, value and error or panic,
as it is; a call with a nil payload aborts on its own and no sub-client is asked. -/
theorem outcome_eq_remoteAnswer (gce : GCECloud) (E : Env) (w : World) (c : Call) :
    (c.nilPayload = false →
      c.remoteAnswer gce (cloud.nextContext E w) = some (outcome gce E w c)) ∧
    (c.nilPayload = true →
      c.remoteAnswer gce (cloud.nextContext E w) = none ∧
      outcome gce E w c = .abort .nilDereference) := by
  rcases c with n | n | n | (_ | bg) | (_ | bg) | (_ | bg) | n | (_ | bg) | (_ | bg) | (_ | bg) | _
  all_goals
    simp only [after, outcome, events, GCECloud.call, GCECloud.GetBackendBucket,
      GCECloud.GetBetaBackendBucket, GCECloud.GetAlphaBackendBucket,
      GCECloud.UpdateBackendBucket, GCECloud.UpdateBetaBackendBucket,
      GCECloud.UpdateAlphaBackendBucket, GCECloud.DeleteBackendBucket,
      GCECloud.CreateBackendBucket, GCECloud.CreateBetaBackendBucket,
      GCECloud.CreateAlphaBackendBucket, GCECloud.ListBackendBuckets,
      bind, Exec.bind, pure, Exec.pure, defer, deref,
      cloud.ContextWithCallTimeout, newBackendBucketMetricContext,
      newBackendBucketMetricContextWithVersion, newGenericMetricContext, timeNow,
      computeV1Version, computeBetaVersion, computeAlphaVersion, unusedMetricLabel,
      Client.Get, Client.List, Client.Insert, Client.Update, Client.Delete,
      Cloud.BackendBuckets, Cloud.BetaBackendBuckets, Cloud.AlphaBackendBuckets, remote,
      metricContext.Observe, Call.remoteAnswer, Call.nilPayload]
  on_goal 1 => generalize gce.c.backendBuckets.Get _ _ = reply
  on_goal 2 => generalize gce.c.betaBackendBuckets.Get _ _ = reply
  on_goal 3 => generalize gce.c.alphaBackendBuckets.Get _ _ = reply
  on_goal 5 => generalize gce.c.backendBuckets.Update _ _ _ = reply
  on_goal 7 => generalize gce.c.betaBackendBuckets.Update _ _ _ = reply
  on_goal 9 => generalize gce.c.alphaBackendBuckets.Update _ _ _ = reply
  on_goal 10 => generalize gce.c.backendBuckets.Delete _ _ = reply
  on_goal 12 => generalize gce.c.backendBuckets.Insert _ _ _ = reply
  on_goal 14 => generalize gce.c.betaBackendBuckets.Insert _ _ _ = reply
  on_goal 16 => generalize gce.c.alphaBackendBuckets.Insert _ _ _ = reply
  on_goal 17 => generalize gce.c.backendBuckets.List _ _ = reply
  all_goals
    first
    | (cases reply <;>
      simp [cloud.cancel, Outcome.map])
    | simp [cloud.cancel, Outcome.map]

/-- Method by method: what a facade method gives back is the reply of the sub-client it
names, asked in the call scope just acquired, on the global key of the name or of the
payload's `Name`, with the caller's payload pointer or with `filter.None`. -/
theorem facade_eq_stub (gce : GCECloud) (E : Env) (w : World) :
    (∀ name, (gce.GetBackendBucket name E w).1 =
      gce.c.backendBuckets.Get (cloud.nextContext E w) (meta.GlobalKey name)) ∧
    (∀ name, (gce.GetBetaBackendBucket name E w).1 =
      gce.c.betaBackendBuckets.Get (cloud.nextContext E w) (meta.GlobalKey name)) ∧
    (∀ name, (gce.GetAlphaBackendBucket name E w).1 =
      gce.c.alphaBackendBuckets.Get (cloud.nextContext E w) (meta.GlobalKey name)) ∧
    (∀ bg : compute.BackendBucket, (gce.UpdateBackendBucket (some bg) E w).1 =
      gce.c.backendBuckets.Update (cloud.nextContext E w) (meta.GlobalKey bg.Name) (some bg)) ∧
    (∀ bg : computebeta.BackendBucket, (gce.UpdateBetaBackendBucket (some bg) E w).1 =
      gce.c.betaBackendBuckets.Update (cloud.nextContext E w) (meta.GlobalKey bg.Name)
        (some bg)) ∧
    (∀ bg : computealpha.BackendBucket, (gce.UpdateAlphaBackendBucket (some bg) E w).1 =
      gce.c.alphaBackendBuckets.Update (cloud.nextContext E w) (meta.GlobalKey bg.Name)
        (some bg)) ∧
    (∀ name, (gce.DeleteBackendBucket name E w).1 =
      gce.c.backendBuckets.Delete (cloud.nextContext E w) (meta.GlobalKey name)) ∧
    (∀ bg : compute.BackendBucket, (gce.CreateBackendBucket (some bg) E w).1 =
      gce.c.backendBuckets.Insert (cloud.nextContext E w) (meta.GlobalKey bg.Name) (some bg)) ∧
    (∀ bg : computebeta.BackendBucket, (gce.CreateBetaBackendBucket (some bg) E w).1 =
      gce.c.betaBackendBuckets.Insert (cloud.nextContext E w) (meta.GlobalKey bg.Name)
        (some bg)) ∧
    (∀ bg : computealpha.BackendBucket, (gce.CreateAlphaBackendBucket (some bg) E w).1 =
      gce.c.alphaBackendBuckets.Insert (cloud.nextContext E w) (meta.GlobalKey bg.Name)
        (some bg)) ∧
    (gce.ListBackendBuckets E w).1 =
      gce.c.backendBuckets.List (cloud.nextContext E w) filter.None := by
  refine ⟨?_, ?_, ?_, ?_, ?_, ?_, ?_, ?_, ?_, ?_, ?_⟩
  all_goals
    intros
    simp only [GCECloud.GetBackendBucket,
      GCECloud.GetBetaBackendBucket, GCECloud.GetAlphaBackendBucket,
      GCECloud.UpdateBackendBucket, GCECloud.UpdateBetaBackendBucket,
      GCECloud.UpdateAlphaBackendBucket, GCECloud.DeleteBackendBucket,
      GCECloud.CreateBackendBucket, GCECloud.CreateBetaBackendBucket,
      GCECloud.CreateAlphaBackendBucket, GCECloud.ListBackendBuckets,
      bind, Exec.bind, pure, Exec.pure, defer, deref,
      cloud.ContextWithCallTimeout, newBackendBucketMetricContext,
      newBackendBucketMetricContextWithVersion, newGenericMetricContext, timeNow,
      computeV1Version, computeBetaVersion, computeAlphaVersion, unusedMetricLabel,
      Client.Get, Client.List, Client.Insert, Client.Update, Client.Delete,
      Cloud.BackendBuckets, Cloud.BetaBackendBuckets, Cloud.AlphaBackendBuckets, remote,
      metricContext.Observe]
  on_goal 1 => generalize gce.c.backendBuckets.Get _ _ = reply
  on_goal 2 => generalize gce.c.betaBackendBuckets.Get _ _ = reply
  on_goal 3 => generalize gce.c.alphaBackendBuckets.Get _ _ = reply
  on_goal 4 => generalize gce.c.backendBuckets.Update _ _ _ = reply
  on_goal 5 => generalize gce.c.betaBackendBuckets.Update _ _ _ = reply
  on_goal 6 => generalize gce.c.alphaBackendBuckets.Update _ _ _ = reply
  on_goal 7 => generalize gce.c.backendBuckets.Delete _ _ = reply
  on_goal 8 => generalize gce.c.backendBuckets.Insert _ _ _ = reply
  on_goal 9 => generalize gce.c.betaBackendBuckets.Insert _ _ _ = reply
  on_goal 10 => generalize gce.c.alphaBackendBuckets.Insert _ _ _ = reply
  on_goal 11 => generalize gce.c.backendBuckets.List _ _ = reply
  all_goals
    cases reply <;> simp [cloud.cancel]

/-! ## A nil payload is the only argument for which no remote invocation is expected -/

/-- A call expects no remote invocation exactly when its payload is nil. -/
theorem expectedRemote_eq_none_iff (ctx : Context) (c : Call) :
    c.expectedRemote ctx = none ↔ c.nilPayload = true := by
  rcases c with n | n | n | (_ | bg) | (_ | bg) | (_ | bg) | n | (_ | bg) | (_ | bg) | (_ | bg) | _ <;>
    simp [Call.expectedRemote, Call.nilPayload]

/-- The remote invocation a call expects is on the sub-client of the call's version, in the
given call scope. -/
theorem expectedRemote_ver_ctx (ctx : Context) (c : Call) (rc : RemoteCall)
    (h : c.expectedRemote ctx = some rc) : rc.ver = c.version ∧ rc.ctx = ctx := by
  rcases c with n | n | n | (_ | bg) | (_ | bg) | (_ | bg) | n | (_ | bg) | (_ | bg) | (_ | bg) | _ <;>
    simp [Call.expectedRemote] at h <;> subst h <;>
    simp [RemoteCall.ver, RemoteCall.ctx, Call.version]

/-- The remote invocations of a call are the one its text spells out, or none for a nil
payload. -/
theorem remoteCalls_events (gce : GCECloud) (E : Env) (w : World) (c : Call) :
    remoteCalls (events gce E w c) = (c.expectedRemote (cloud.nextContext E w)).toList := by
  obtain ⟨-, -, -, hs⟩ := call_shape gce E w c
  rcases hs with ⟨hn, -, he⟩ | ⟨rc1, p, hn, -, he⟩ | ⟨rc1, r, hn, -, he⟩ <;>
    simp [hn, he, remoteCalls]

/-! ## Properties of the facade -/

/-- C1: for every facade operation and every non-nil error `e` that the remote sub-client
returns for the call (together with whatever value), the facade returns exactly what the
sub-client returned, `e` itself as the error, and the one observation it records is a
failure observation (of the class of `e`). -/
theorem C1_remote_error_returned_unchanged (gce : GCECloud) (E : Env) (w : World) (c : Call)
    (r : Returned) (e : Error)
    (h : c.remoteAnswer gce (cloud.nextContext E w) = some (.ret r))
    (he : r.err = some e) :
    outcome gce E w c = .ret r ∧
    (∃ o, observations (events gce E w c) = [o] ∧ o.result = Result.failure e.kind) := by
  obtain ⟨h1, h2⟩ := outcome_eq_remoteAnswer gce E w c
  have hp : c.nilPayload = false := by
    cases hn : c.nilPayload
    · rfl
    · rw [(h2 hn).1] at h
      cases h
  have ho : outcome gce E w c = .ret r := by
    have := h1 hp
    rw [h] at this
    exact (Option.some.inj this).symm
  refine ⟨ho, ?_⟩
  obtain ⟨-, -, -, hs⟩ := call_shape gce E w c
  rcases hs with ⟨-, ho1, -⟩ | ⟨rc1, p, -, ho1, -⟩ | ⟨rc1, r1, -, ho1, hev⟩
  · rw [ho] at ho1
    cases ho1
  · rw [ho] at ho1
    cases ho1
  · rw [ho] at ho1
    cases ho1
    rw [hev]
    simp [observations, Call.expectedObservation, resultOf, he]

/-- C1, witnessed on sub-clients that report NotFound: `Get("missing")`, and likewise a
`Delete` and a `Create`, each return that NotFound and record a failure. -/
theorem C1_remote_error_returned_unchanged_witness :
    (notFoundCloud.c.backendBuckets.Get (cloud.nextContext sampleEnv World.initial)
        (meta.GlobalKey "missing") = .ret (none, some errNotFound) ∧
      (Call.GetBackendBucket "missing").remoteAnswer notFoundCloud
        (cloud.nextContext sampleEnv World.initial) = some (.ret (.stable none (some errNotFound))) ∧
      outcome notFoundCloud sampleEnv World.initial (.GetBackendBucket "missing") =
        .ret (.stable none (some errNotFound)) ∧
      ∃ o, observations (events notFoundCloud sampleEnv World.initial
          (.GetBackendBucket "missing")) = [o] ∧
        o.result = Result.failure errNotFound.kind) ∧
    (notFoundCloud.c.backendBuckets.Delete (cloud.nextContext sampleEnv World.initial)
        (meta.GlobalKey "missing") = .ret (some errNotFound) ∧
      outcome notFoundCloud sampleEnv World.initial (.DeleteBackendBucket "missing") =
        .ret (.error (some errNotFound)) ∧
      ∃ o, observations (events notFoundCloud sampleEnv World.initial
          (.DeleteBackendBucket "missing")) = [o] ∧
        o.result = Result.failure errNotFound.kind) ∧
    (notFoundCloud.c.alphaBackendBuckets.Insert (cloud.nextContext sampleEnv World.initial)
        (meta.GlobalKey "x") (some sampleAlphaBucket) = .ret (some errNotFound) ∧
      outcome notFoundCloud sampleEnv World.initial
          (.CreateAlphaBackendBucket (some sampleAlphaBucket)) =
        .ret (.error (some errNotFound)) ∧
      ∃ o, observations (events notFoundCloud sampleEnv World.initial
          (.CreateAlphaBackendBucket (some sampleAlphaBucket))) = [o] ∧
        o.result = Result.failure errNotFound.kind) :=
  ⟨⟨rfl, rfl,
    (C1_remote_error_returned_unchanged notFoundCloud sampleEnv World.initial
      (.GetBackendBucket "missing") (.stable none (some errNotFound)) errNotFound rfl rfl).1,
    (C1_remote_error_returned_unchanged notFoundCloud sampleEnv World.initial
      (.GetBackendBucket "missing") (.stable none (some errNotFound)) errNotFound rfl rfl).2⟩,
   ⟨rfl,
    (C1_remote_error_returned_unchanged notFoundCloud sampleEnv World.initial
      (.DeleteBackendBucket "missing") (.error (some errNotFound)) errNotFound rfl rfl).1,
    (C1_remote_error_returned_unchanged notFoundCloud sampleEnv World.initial
      (.DeleteBackendBucket "missing") (.error (some errNotFound)) errNotFound rfl rfl).2⟩,
   ⟨rfl,
    (C1_remote_error_returned_unchanged notFoundCloud sampleEnv World.initial
      (.CreateAlphaBackendBucket (some sampleAlphaBucket)) (.error (some errNotFound))
      errNotFound rfl rfl).1,
    (C1_remote_error_returned_unchanged notFoundCloud sampleEnv World.initial
      (.CreateAlphaBackendBucket (some sampleAlphaBucket)) (.error (some errNotFound))
      errNotFound rfl rfl).2⟩⟩

/-- C2, as stated, fails: `CreateBackendBucket(nil)` records no observation. -/
theorem C2_nil_payload_records_nothing :
    ¬ (observations (events okCloud sampleEnv World.initial (.CreateBackendBucket none))).length
        = 1 := by
  decide

/-- C2, amended: for every call of one of the eleven facade methods with a name or a non-nil
payload, and every remote outcome that is a return (a value with no error, or a non-nil
error), the metric sink receives exactly one observation from the call. -/
theorem C2_one_observation_per_call (gce : GCECloud) (E : Env) (w : World) (c : Call)
    (hp : c.nilPayload = false)
    (hr : remoteAborted (events gce E w c) = false) :
    (observations (events gce E w c)).length = 1 := by
  obtain ⟨-, -, -, hs⟩ := call_shape gce E w c
  rcases hs with ⟨hn, -, -⟩ | ⟨rc1, p, -, -, he⟩ | ⟨rc1, r, -, -, he⟩
  · rw [expectedRemote_eq_none_iff] at hn
    simp [hn] at hp
  · simp [he, remoteAborted] at hr
  · simp [he, observations]

/-- C2, witnessed: a `DeleteBackendBucket` that the remote answers with NotFound. -/
theorem C2_one_observation_per_call_witness :
    (Call.DeleteBackendBucket "x").nilPayload = false ∧
    remoteAborted (events notFoundCloud sampleEnv World.initial (.DeleteBackendBucket "x"))
      = false ∧
    (observations (events notFoundCloud sampleEnv World.initial
      (.DeleteBackendBucket "x"))).length = 1 :=
  ⟨by decide, by decide,
   C2_one_observation_per_call notFoundCloud sampleEnv World.initial (.DeleteBackendBucket "x")
    (by decide) (by decide)⟩

/-- C3: when the sub-client of a version answers `Get` on the global key of `x` with a value
`v` and no error, the `Get` facade of that version returns `v` and no error, and records
one success observation tagged with that version; and `ListBackendBuckets` returns the
list the stable `List` gave back, unchanged. -/
theorem C3_get_returns_remote_value (gce : GCECloud) (E : Env) (w : World) (x : String) :
    (∀ v, gce.c.backendBuckets.Get (cloud.nextContext E w) (meta.GlobalKey x) = .ret (v, none) →
      (gce.GetBackendBucket x E w).1 = .ret (v, none) ∧
      ∃ o, observations (events gce E w (.GetBackendBucket x)) = [o] ∧
        o.result = Result.success ∧ o.version = E.computeV1Version) ∧
    (∀ v, gce.c.betaBackendBuckets.Get (cloud.nextContext E w) (meta.GlobalKey x)
        = .ret (v, none) →
      (gce.GetBetaBackendBucket x E w).1 = .ret (v, none) ∧
      ∃ o, observations (events gce E w (.GetBetaBackendBucket x)) = [o] ∧
        o.result = Result.success ∧ o.version = E.computeBetaVersion) ∧
    (∀ v, gce.c.alphaBackendBuckets.Get (cloud.nextContext E w) (meta.GlobalKey x)
        = .ret (v, none) →
      (gce.GetAlphaBackendBucket x E w).1 = .ret (v, none) ∧
      ∃ o, observations (events gce E w (.GetAlphaBackendBucket x)) = [o] ∧
        o.result = Result.success ∧ o.version = E.computeAlphaVersion) ∧
    (∀ vs err, gce.c.backendBuckets.List (cloud.nextContext E w) filter.None = .ret (vs, err) →
      (gce.ListBackendBuckets E w).1 = .ret (vs, err)) := by
  refine ⟨?_, ?_, ?_, ?_⟩
  all_goals
    intros
    simp [after, events, GCECloud.call, GCECloud.GetBackendBucket,
      GCECloud.GetBetaBackendBucket, GCECloud.GetAlphaBackendBucket,
      GCECloud.ListBackendBuckets,
      bind, Exec.bind, pure, Exec.pure, defer,
      cloud.ContextWithCallTimeout, newBackendBucketMetricContext,
      newBackendBucketMetricContextWithVersion, newGenericMetricContext, timeNow,
      computeV1Version, computeBetaVersion, computeAlphaVersion, unusedMetricLabel,
      Client.Get, Client.List,
      Cloud.BackendBuckets, Cloud.BetaBackendBuckets, Cloud.AlphaBackendBuckets, remote,
      metricContext.Observe, cloud.cancel, Outcome.map, observations, *]

/-- C3, witnessed on sub-clients that answer every `Get` with the sample bucket. -/
theorem C3_get_returns_remote_value_witness :
    (okCloud.c.backendBuckets.Get (cloud.nextContext sampleEnv World.initial)
        (meta.GlobalKey "x") = .ret (some sampleBucket, none) ∧
      (okCloud.GetBackendBucket "x" sampleEnv World.initial).1
        = .ret (some sampleBucket, none)) ∧
    (okCloud.c.betaBackendBuckets.Get (cloud.nextContext sampleEnv World.initial)
        (meta.GlobalKey "x") = .ret (some sampleBetaBucket, none) ∧
      (okCloud.GetBetaBackendBucket "x" sampleEnv World.initial).1
        = .ret (some sampleBetaBucket, none)) ∧
    (okCloud.c.alphaBackendBuckets.Get (cloud.nextContext sampleEnv World.initial)
        (meta.GlobalKey "x") = .ret (some sampleAlphaBucket, none) ∧
      (okCloud.GetAlphaBackendBucket "x" sampleEnv World.initial).1
        = .ret (some sampleAlphaBucket, none)) ∧
    (okCloud.c.backendBuckets.List (cloud.nextContext sampleEnv World.initial) filter.None
        = .ret ([some sampleBucket], none) ∧
      (okCloud.ListBackendBuckets sampleEnv World.initial).1
        = .ret ([some sampleBucket], none)) :=
  ⟨⟨rfl, ((C3_get_returns_remote_value okCloud sampleEnv World.initial "x").1
      (some sampleBucket) rfl).1⟩,
   ⟨rfl, ((C3_get_returns_remote_value okCloud sampleEnv World.initial "x").2.1
      (some sampleBetaBucket) rfl).1⟩,
   ⟨rfl, ((C3_get_returns_remote_value okCloud sampleEnv World.initial "x").2.2.1
      (some sampleAlphaBucket) rfl).1⟩,
   ⟨rfl, (C3_get_returns_remote_value okCloud sampleEnv World.initial "x").2.2.2
      [some sampleBucket] none rfl⟩⟩

/-- C4, as stated, fails: with a call scope that is already expired, `GetBackendBucket("x")`
does not return DeadlineExceeded without invoking the sub-client. It invokes the stable
sub-client and returns what that answers, here a value and no error. -/
theorem C4_expired_scope_still_invokes_remote :
    ¬ ((cloud.nextContext expiredEnv World.initial).expired = true →
        returnedKind .DeadlineExceeded
            (outcome okCloud expiredEnv World.initial (.GetBackendBucket "x")) = true ∧
          remoteCalls (events okCloud expiredEnv World.initial (.GetBackendBucket "x")) = []) := by
  decide

/-- C4, amended: a facade operation given a name or a non-nil payload does not look at the
call scope itself. When the scope handed out is already expired, the operation still
invokes the sub-client of its version exactly once, hands it that expired scope, and gives
back what the sub-client answers to it, unchanged: it returns DeadlineExceeded exactly
when the sub-client, asked in the expired scope, answers DeadlineExceeded. -/
theorem C4_expired_scope_is_forwarded (gce : GCECloud) (E : Env) (w : World) (c : Call)
    (hx : (cloud.nextContext E w).expired = true) (hp : c.nilPayload = false) :
    c.remoteAnswer gce (cloud.nextContext E w) = some (outcome gce E w c) ∧
    (∃ rc, remoteCalls (events gce E w c) = [rc] ∧ rc.ver = c.version ∧
      rc.ctx = cloud.nextContext E w ∧ rc.ctx.expired = true) ∧
    (returnedKind .DeadlineExceeded (outcome gce E w c) = true ↔
      ∃ r, c.remoteAnswer gce (cloud.nextContext E w) = some (.ret r) ∧
        hasKind .DeadlineExceeded r.err = true) := by
  have ha := (outcome_eq_remoteAnswer gce E w c).1 hp
  refine ⟨ha, ?_, ?_⟩
  · obtain ⟨-, -, -, hs⟩ := call_shape gce E w c
    rcases hs with ⟨hn, -, -⟩ | ⟨rc1, p, hn, -, he⟩ | ⟨rc1, r, hn, -, he⟩
    · rw [expectedRemote_eq_none_iff] at hn
      simp [hn] at hp
    · obtain ⟨hv, hc⟩ := expectedRemote_ver_ctx _ _ _ hn
      exact ⟨rc1, by simp [he, remoteCalls], hv, hc, by rw [hc]; exact hx⟩
    · obtain ⟨hv, hc⟩ := expectedRemote_ver_ctx _ _ _ hn
      exact ⟨rc1, by simp [he, remoteCalls], hv, hc, by rw [hc]; exact hx⟩
  · rw [ha]
    cases outcome gce E w c <;> simp [returnedKind]

/-- C4, witnessed on sub-clients that honour the scope: asked in an expired scope the
beta sub-client answers DeadlineExceeded, and the facade returns that. -/
theorem C4_expired_scope_is_forwarded_witness :
    (cloud.nextContext expiredEnv World.initial).expired = true ∧
    (Call.UpdateBetaBackendBucket (some sampleBetaBucket)).nilPayload = false ∧
    deadlineCloud.c.betaBackendBuckets.Update (cloud.nextContext expiredEnv World.initial)
      (meta.GlobalKey "x") (some sampleBetaBucket) = .ret (some errDeadline) ∧
    outcome deadlineCloud expiredEnv World.initial
      (.UpdateBetaBackendBucket (some sampleBetaBucket)) = .ret (.error (some errDeadline)) ∧
    (Call.UpdateBetaBackendBucket (some sampleBetaBucket)).remoteAnswer deadlineCloud
        (cloud.nextContext expiredEnv World.initial) =
      some (outcome deadlineCloud expiredEnv World.initial
        (.UpdateBetaBackendBucket (some sampleBetaBucket))) ∧
    (∃ rc, remoteCalls (events deadlineCloud expiredEnv World.initial
        (.UpdateBetaBackendBucket (some sampleBetaBucket))) = [rc] ∧
      rc.ver = (Call.UpdateBetaBackendBucket (some sampleBetaBucket)).version ∧
      rc.ctx = cloud.nextContext expiredEnv World.initial ∧ rc.ctx.expired = true) :=
  ⟨by decide, by decide, rfl, by decide,
   (C4_expired_scope_is_forwarded deadlineCloud expiredEnv World.initial
    (.UpdateBetaBackendBucket (some sampleBetaBucket)) (by decide) (by decide)).1,
   (C4_expired_scope_is_forwarded deadlineCloud expiredEnv World.initial
    (.UpdateBetaBackendBucket (some sampleBetaBucket)) (by decide) (by decide)).2.1⟩

/-- C5, as stated, fails: `GetBackendBucket("")` does not return InvalidArgument in place of
a remote invocation. It invokes the stable sub-client on the global key of the empty name
and returns what that answers. -/
theorem C5_empty_name_reaches_remote :
    ¬ (returnedKind .InvalidArgument
          (outcome okCloud sampleEnv World.initial (.GetBackendBucket "")) = true ∧
        remoteCalls (events okCloud sampleEnv World.initial (.GetBackendBucket "")) = []) := by
  decide

/-- C5, amended: the facade does not validate the name and has no InvalidArgument path of its
own. For every name a call carries (its name argument, or the `Name` of its non-nil
payload), the empty name included, it passes `meta.GlobalKey` of that name to the
sub-client of its version, invokes that sub-client exactly once, and gives back the
sub-client's answer unchanged: it returns InvalidArgument exactly when the sub-client
answers InvalidArgument. -/
theorem C5_name_not_validated (gce : GCECloud) (E : Env) (w : World) (c : Call)
    (name : String) (h : c.name = some name) :
    c.remoteAnswer gce (cloud.nextContext E w) = some (outcome gce E w c) ∧
    (∃ rc, remoteCalls (events gce E w c) = [rc] ∧ rc.key = some (meta.GlobalKey name)) ∧
    (returnedKind .InvalidArgument (outcome gce E w c) = true ↔
      ∃ r, c.remoteAnswer gce (cloud.nextContext E w) = some (.ret r) ∧
        hasKind .InvalidArgument r.err = true) ∧
    (gce.GetBackendBucket name E w).1 =
      gce.c.backendBuckets.Get (cloud.nextContext E w) (meta.GlobalKey name) ∧
    (gce.DeleteBackendBucket name E w).1 =
      gce.c.backendBuckets.Delete (cloud.nextContext E w) (meta.GlobalKey name) ∧
    (∀ bg : compute.BackendBucket, bg.Name = name →
      (gce.CreateBackendBucket (some bg) E w).1 =
        gce.c.backendBuckets.Insert (cloud.nextContext E w) (meta.GlobalKey name) (some bg)) ∧
    (∀ bg : compute.BackendBucket, bg.Name = name →
      (gce.UpdateBackendBucket (some bg) E w).1 =
        gce.c.backendBuckets.Update (cloud.nextContext E w) (meta.GlobalKey name) (some bg)) := by
  have hp : c.nilPayload = false := by
    rcases c with n | n | n | (_ | bg) | (_ | bg) | (_ | bg) | n | (_ | bg) | (_ | bg) | (_ | bg) | _ <;>
      simp [Call.nilPayload, Call.name] at h ⊢
  have ha := (outcome_eq_remoteAnswer gce E w c).1 hp
  have hk : ∀ rc, c.expectedRemote (cloud.nextContext E w) = some rc →
      rc.key = some (meta.GlobalKey name) := by
    intro rc hrc
    rcases c with n | n | n | (_ | bg) | (_ | bg) | (_ | bg) | n | (_ | bg) | (_ | bg) | (_ | bg) | _ <;>
      simp [Call.expectedRemote] at hrc <;> subst hrc <;>
      simp_all [RemoteCall.key, Call.name]
  obtain ⟨f1, -, -, f4, -, -, f7, f8, -, -, -⟩ := facade_eq_stub gce E w
  refine ⟨ha, ?_, ?_, f1 name, f7 name, ?_, ?_⟩
  · have hr := remoteCalls_events gce E w c
    cases hrc : c.expectedRemote (cloud.nextContext E w) with
    | none =>
      rw [expectedRemote_eq_none_iff] at hrc
      simp [hrc] at hp
    | some rc =>
      rw [hrc] at hr
      exact ⟨rc, by simpa using hr, hk rc hrc⟩
  · rw [ha]
    cases outcome gce E w c <;> simp [returnedKind]
  · intro bg hb
    rw [← hb]
    exact f8 bg
  · intro bg hb
    rw [← hb]
    exact f4 bg

/-- C5, witnessed at the empty name: creating a bucket whose `Name` is empty reaches the
stable sub-client on the global key of the empty name. -/
theorem C5_name_not_validated_witness :
    (Call.CreateBackendBucket (some unnamedBucket)).name = some "" ∧
    okCloud.c.backendBuckets.Insert (cloud.nextContext sampleEnv World.initial)
      (meta.GlobalKey "") (some unnamedBucket) = .ret none ∧
    outcome okCloud sampleEnv World.initial (.CreateBackendBucket (some unnamedBucket)) =
      .ret (.error none) ∧
    (Call.CreateBackendBucket (some unnamedBucket)).remoteAnswer okCloud
        (cloud.nextContext sampleEnv World.initial) =
      some (outcome okCloud sampleEnv World.initial
        (.CreateBackendBucket (some unnamedBucket))) ∧
    (∃ rc, remoteCalls (events okCloud sampleEnv World.initial
        (.CreateBackendBucket (some unnamedBucket))) = [rc] ∧
      rc.key = some (meta.GlobalKey "")) ∧
    (okCloud.GetBackendBucket "" sampleEnv World.initial).1 =
      okCloud.c.backendBuckets.Get (cloud.nextContext sampleEnv World.initial)
        (meta.GlobalKey "") :=
  ⟨by decide, rfl, by decide,
   (C5_name_not_validated okCloud sampleEnv World.initial
    (.CreateBackendBucket (some unnamedBucket)) "" (by decide)).1,
   (C5_name_not_validated okCloud sampleEnv World.initial
    (.CreateBackendBucket (some unnamedBucket)) "" (by decide)).2.1,
   (C5_name_not_validated okCloud sampleEnv World.initial
    (.CreateBackendBucket (some unnamedBucket)) "" (by decide)).2.2.2.1⟩

/-- C6, as stated, fails: not all fifteen combinations are served; no entry point performs
`Delete` on the beta sub-client. -/
theorem C6_not_all_combinations_served :
    ¬ ∀ (O : Op) (V : Version), ∃ c : Call, serves c O V := by
  intro h
  obtain ⟨c, hc⟩ := h .Delete .beta
  obtain ⟨rc, hm, ho, hv⟩ := hc okCloud sampleEnv World.initial
  rw [remoteCalls_events] at hm
  rcases c with n | n | n | (_ | bg) | (_ | bg) | (_ | bg) | n | (_ | bg) | (_ | bg) | (_ | bg) | _ <;>
    simp [Call.expectedRemote] at hm <;> subst hm <;>
    simp [RemoteCall.op, RemoteCall.ver] at ho hv

/-- C6, amended: the public surface serves eleven of the fifteen combinations: `Get`,
`Create` (the remote `Insert`) and `Update` on each of the three versions, `Delete` and
`List` on the stable version only. -/
theorem C6_served_combinations (O : Op) (V : Version) :
    (∃ c : Call, serves c O V) ↔
      (O = .Get ∨ O = .Insert ∨ O = .Update ∨ V = .stable) := by
  constructor
  · rintro ⟨c, hc⟩
    obtain ⟨rc, hm, ho, hv⟩ := hc okCloud sampleEnv World.initial
    rw [remoteCalls_events] at hm
    rcases c with n | n | n | (_ | bg) | (_ | bg) | (_ | bg) | n | (_ | bg) | (_ | bg) | (_ | bg) | _ <;>
      simp [Call.expectedRemote] at hm <;> subst hm <;>
      simp [RemoteCall.op, RemoteCall.ver] at ho hv <;> subst ho <;> subst hv <;> simp
  · intro h
    have key : ∀ c : Call, ∀ rc0 : Context → RemoteCall,
        (∀ ctx, c.expectedRemote ctx = some (rc0 ctx)) →
        (∀ ctx, (rc0 ctx).op = O ∧ (rc0 ctx).ver = V) → serves c O V := by
      intro c rc0 h1 h2 gce E w
      refine ⟨rc0 (cloud.nextContext E w), ?_, h2 _⟩
      rw [remoteCalls_events, h1]
      simp
    cases O <;> cases V <;> simp at h
    · exact ⟨.GetBackendBucket "x", key _ (fun ctx => .Get .stable ctx (meta.GlobalKey "x"))
        (fun _ => rfl) (fun _ => ⟨rfl, rfl⟩)⟩
    · exact ⟨.GetBetaBackendBucket "x", key _ (fun ctx => .Get .beta ctx (meta.GlobalKey "x"))
        (fun _ => rfl) (fun _ => ⟨rfl, rfl⟩)⟩
    · exact ⟨.GetAlphaBackendBucket "x", key _ (fun ctx => .Get .alpha ctx (meta.GlobalKey "x"))
        (fun _ => rfl) (fun _ => ⟨rfl, rfl⟩)⟩
    · exact ⟨.ListBackendBuckets, key _ (fun ctx => .List .stable ctx filter.None)
        (fun _ => rfl) (fun _ => ⟨rfl, rfl⟩)⟩
    · exact ⟨.CreateBackendBucket (some sampleBucket), key _
        (fun ctx => .Insert .stable ctx (meta.GlobalKey "x") (.stable (some sampleBucket)))
        (fun _ => rfl) (fun _ => ⟨rfl, rfl⟩)⟩
    · exact ⟨.CreateBetaBackendBucket (some sampleBetaBucket), key _
        (fun ctx => .Insert .beta ctx (meta.GlobalKey "x") (.beta (some sampleBetaBucket)))
        (fun _ => rfl) (fun _ => ⟨rfl, rfl⟩)⟩
    · exact ⟨.CreateAlphaBackendBucket (some sampleAlphaBucket), key _
        (fun ctx => .Insert .alpha ctx (meta.GlobalKey "x") (.alpha (some sampleAlphaBucket)))
        (fun _ => rfl) (fun _ => ⟨rfl, rfl⟩)⟩
    · exact ⟨.UpdateBackendBucket (some sampleBucket), key _
        (fun ctx => .Update .stable ctx (meta.GlobalKey "x") (.stable (some sampleBucket)))
        (fun _ => rfl) (fun _ => ⟨rfl, rfl⟩)⟩
    · exact ⟨.UpdateBetaBackendBucket (some sampleBetaBucket), key _
        (fun ctx => .Update .beta ctx (meta.GlobalKey "x") (.beta (some sampleBetaBucket)))
        (fun _ => rfl) (fun _ => ⟨rfl, rfl⟩)⟩
    · exact ⟨.UpdateAlphaBackendBucket (some sampleAlphaBucket), key _
        (fun ctx => .Update .alpha ctx (meta.GlobalKey "x") (.alpha (some sampleAlphaBucket)))
        (fun _ => rfl) (fun _ => ⟨rfl, rfl⟩)⟩
    · exact ⟨.DeleteBackendBucket "x", key _ (fun ctx => .Delete .stable ctx (meta.GlobalKey "x"))
        (fun _ => rfl) (fun _ => ⟨rfl, rfl⟩)⟩

/-- C7: `newBackendBucketMetricContext(request, region)` is
`newBackendBucketMetricContextWithVersion(request, region, computeV1Version)`, and the
latter builds a context of resource kind "backendbucket" with the given request, region
and version. Every facade method records its observation, when it records one, with kind
"backendbucket", its own operation name, the empty region and the version string of its
version, and every remote invocation it makes is on the sub-client of that same version;
a call that returns has recorded exactly that observation. -/
theorem C7_metric_context_tags (gce : GCECloud) (E : Env) (w : World) (c : Call) :
    (∀ request region,
      newBackendBucketMetricContext request region E w =
        newBackendBucketMetricContextWithVersion request region E.computeV1Version E w) ∧
    (∀ request region version,
      (newBackendBucketMetricContextWithVersion request region version E w).1 =
        .ret { resourceKind := "backendbucket", request := request, region := region,
               zone := E.unusedMetricLabel, version := version, start := E.clock w.ticks }) ∧
    (∀ o, o ∈ observations (events gce E w c) →
      o.resourceKind = "backendbucket" ∧ o.operation = c.request ∧ o.region = "" ∧
      o.version = E.versionLabel c.version) ∧
    (∀ rc, rc ∈ remoteCalls (events gce E w c) → rc.ver = c.version) ∧
    (∀ r, outcome gce E w c = .ret r →
      observations (events gce E w c) =
        [{ resourceKind := "backendbucket", operation := c.request, region := "",
           zone := E.unusedMetricLabel, version := E.versionLabel c.version,
           result := resultOf r.err,
           duration := E.clock (w.ticks + 1) - E.clock w.ticks }]) := by
  refine ⟨fun _ _ => rfl, fun _ _ _ => rfl, ?_, ?_, ?_⟩
  · intro o ho
    obtain ⟨-, -, -, hs⟩ := call_shape gce E w c
    rcases hs with ⟨-, -, he⟩ | ⟨rc1, p, -, -, he⟩ | ⟨rc1, r, -, -, he⟩ <;>
      simp [he, observations] at ho
    subst ho
    simp [Call.expectedObservation]
  · intro rc hrc
    rw [remoteCalls_events] at hrc
    simp at hrc
    exact (expectedRemote_ver_ctx _ _ _ hrc).1
  · intro r hr
    obtain ⟨-, -, -, hs⟩ := call_shape gce E w c
    rcases hs with ⟨-, ho, -⟩ | ⟨rc1, p, -, ho, -⟩ | ⟨rc1, r1, -, ho, he⟩
    · simp [ho] at hr
    · simp [ho] at hr
    · rw [ho] at hr
      cases hr
      simp [he, observations, Call.expectedObservation]

/-- C8: a facade call given a name or a non-nil payload makes exactly one remote
invocation, whatever the remote answers (an error is not retried): on the sub-client of
the method's own version, in the call scope the method acquired and before that scope is
released, addressed by the global-scope key of the name or of the payload's `Name`, with
the caller's payload forwarded as it is, and what the call gives back is that sub-client's
answer to exactly those arguments; `ListBackendBuckets` makes exactly one `List`
invocation, with `filter.None`. -/
theorem C8_exactly_one_remote_invocation (gce : GCECloud) (E : Env) (w : World) (c : Call)
    (hp : c.nilPayload = false) :
    c.remoteAnswer gce (cloud.nextContext E w) = some (outcome gce E w c) ∧
    (∃ rc, c.expectedRemote (cloud.nextContext E w) = some rc ∧
      remoteCalls (events gce E w c) = [rc] ∧
      rc.ver = c.version ∧
      acquired (events gce E w c) = [rc.ctx] ∧
      ∃ rest, events gce E w c =
        Event.acquire rc.ctx ::
          Event.remote rc ((outcome gce E w c).map Returned.err) ::
            (rest ++ [Event.release rc.ctx.id]) ∧
        remoteCalls rest = []) ∧
    remoteCalls (events gce E w .ListBackendBuckets) =
      [.List .stable (cloud.nextContext E w) filter.None] ∧
    (∀ name, (gce.GetBackendBucket name E w).1 =
      gce.c.backendBuckets.Get (cloud.nextContext E w) (meta.GlobalKey name)) ∧
    (∀ name, (gce.GetBetaBackendBucket name E w).1 =
      gce.c.betaBackendBuckets.Get (cloud.nextContext E w) (meta.GlobalKey name)) ∧
    (∀ name, (gce.GetAlphaBackendBucket name E w).1 =
      gce.c.alphaBackendBuckets.Get (cloud.nextContext E w) (meta.GlobalKey name)) ∧
    (∀ bg : compute.BackendBucket, (gce.UpdateBackendBucket (some bg) E w).1 =
      gce.c.backendBuckets.Update (cloud.nextContext E w) (meta.GlobalKey bg.Name) (some bg)) ∧
    (∀ bg : computebeta.BackendBucket, (gce.UpdateBetaBackendBucket (some bg) E w).1 =
      gce.c.betaBackendBuckets.Update (cloud.nextContext E w) (meta.GlobalKey bg.Name)
        (some bg)) ∧
    (∀ bg : computealpha.BackendBucket, (gce.UpdateAlphaBackendBucket (some bg) E w).1 =
      gce.c.alphaBackendBuckets.Update (cloud.nextContext E w) (meta.GlobalKey bg.Name)
        (some bg)) ∧
    (∀ name, (gce.DeleteBackendBucket name E w).1 =
      gce.c.backendBuckets.Delete (cloud.nextContext E w) (meta.GlobalKey name)) ∧
    (∀ bg : compute.BackendBucket, (gce.CreateBackendBucket (some bg) E w).1 =
      gce.c.backendBuckets.Insert (cloud.nextContext E w) (meta.GlobalKey bg.Name) (some bg)) ∧
    (∀ bg : computebeta.BackendBucket, (gce.CreateBetaBackendBucket (some bg) E w).1 =
      gce.c.betaBackendBuckets.Insert (cloud.nextContext E w) (meta.GlobalKey bg.Name)
        (some bg)) ∧
    (∀ bg : computealpha.BackendBucket, (gce.CreateAlphaBackendBucket (some bg) E w).1 =
      gce.c.alphaBackendBuckets.Insert (cloud.nextContext E w) (meta.GlobalKey bg.Name)
        (some bg)) ∧
    (gce.ListBackendBuckets E w).1 =
      gce.c.backendBuckets.List (cloud.nextContext E w) filter.None := by
  have hl : remoteCalls (events gce E w .ListBackendBuckets) =
      [.List .stable (cloud.nextContext E w) filter.None] := by
    rw [remoteCalls_events]; rfl
  refine ⟨(outcome_eq_remoteAnswer gce E w c).1 hp, ?_, hl, facade_eq_stub gce E w⟩
  obtain ⟨-, -, -, hs⟩ := call_shape gce E w c
  rcases hs with ⟨hn, -, -⟩ | ⟨rc1, p, hn, ho, he⟩ | ⟨rc1, r, hn, ho, he⟩
  · rw [expectedRemote_eq_none_iff] at hn
    simp [hn] at hp
  · obtain ⟨hv, hc⟩ := expectedRemote_ver_ctx _ _ _ hn
    exact ⟨rc1, hn, by simp [he, remoteCalls], hv, by simp [he, acquired, hc],
      [], by simp [he, hc, ho, Outcome.map], rfl⟩
  · obtain ⟨hv, hc⟩ := expectedRemote_ver_ctx _ _ _ hn
    exact ⟨rc1, hn, by simp [he, remoteCalls], hv, by simp [he, acquired, hc],
      [.observe (c.expectedObservation E w r.err)], by simp [he, hc, ho, Outcome.map], rfl⟩

/-- C8, witnessed: an update the remote rejects is invoked once with the caller's bucket,
not retried, and its NotFound is what the call returns. -/
theorem C8_exactly_one_remote_invocation_witness :
    (Call.UpdateBackendBucket (some sampleBucket)).nilPayload = false ∧
    notFoundCloud.c.backendBuckets.Update (cloud.nextContext sampleEnv World.initial)
      (meta.GlobalKey sampleBucket.Name) (some sampleBucket) = .ret (some errNotFound) ∧
    outcome notFoundCloud sampleEnv World.initial (.UpdateBackendBucket (some sampleBucket)) =
      .ret (.error (some errNotFound)) ∧
    remoteCalls (events notFoundCloud sampleEnv World.initial
        (.UpdateBackendBucket (some sampleBucket))) =
      [.Update .stable { id := 0, expired := false } (meta.GlobalKey "x")
        (.stable (some sampleBucket))] ∧
    (Call.UpdateBackendBucket (some sampleBucket)).remoteAnswer notFoundCloud
        (cloud.nextContext sampleEnv World.initial) =
      some (outcome notFoundCloud sampleEnv World.initial
        (.UpdateBackendBucket (some sampleBucket))) ∧
    (notFoundCloud.UpdateBackendBucket (some sampleBucket) sampleEnv World.initial).1 =
      notFoundCloud.c.backendBuckets.Update (cloud.nextContext sampleEnv World.initial)
        (meta.GlobalKey sampleBucket.Name) (some sampleBucket) :=
  ⟨by decide, rfl, by decide, by decide,
   (C8_exactly_one_remote_invocation notFoundCloud sampleEnv World.initial
    (.UpdateBackendBucket (some sampleBucket)) (by decide)).1,
   (C8_exactly_one_remote_invocation notFoundCloud sampleEnv World.initial
    (.UpdateBackendBucket (some sampleBucket)) (by decide)).2.2.2.2.2.2.1 sampleBucket⟩

/-- C9: every facade call acquires exactly one call scope, the next one the provider hands
out, and releases exactly that scope exactly once, as the last thing it does, whether the
call returns (the remote succeeded or failed) or aborts; the scopes acquired and not yet
released are the same after the call as before it. -/
theorem C9_call_scope_released_once (gce : GCECloud) (E : Env) (w : World) (c : Call) :
    acquired (events gce E w c) = [cloud.nextContext E w] ∧
    released (events gce E w c) = [(cloud.nextContext E w).id] ∧
    (∃ body, events gce E w c =
      Event.acquire (cloud.nextContext E w) :: (body ++
        [Event.release (cloud.nextContext E w).id]) ∧ released body = []) ∧
    (after gce E w c).live = w.live := by
  obtain ⟨-, hl, -, hs⟩ := call_shape gce E w c
  rcases hs with ⟨-, -, he⟩ | ⟨rc1, p, -, -, he⟩ | ⟨rc1, r, -, -, he⟩
  · exact ⟨by simp [he, acquired], by simp [he, released], ⟨[], by simp [he], rfl⟩, hl⟩
  · exact ⟨by simp [he, acquired], by simp [he, released],
      ⟨[.remote rc1 (.abort p)], by simp [he], rfl⟩, hl⟩
  · exact ⟨by simp [he, acquired], by simp [he, released],
      ⟨[.remote rc1 (.ret r.err), .observe (c.expectedObservation E w r.err)],
        by simp [he], rfl⟩, hl⟩

/-- C10: each of the six payload-taking facades reads `bg.Name` before it invokes the remote
and before it calls `Observe`. Given a nil payload it aborts with a nil-pointer
dereference, having made no remote invocation and recorded no observation, and returns
nothing; given a non-nil payload it reaches the remote invocation. -/
theorem C10_nil_payload_aborts_first (gce : GCECloud) (E : Env) (w : World) (c : Call)
    (h : c.takesPayload = true) :
    (c.nilPayload = true →
      outcome gce E w c = .abort .nilDereference ∧
      remoteCalls (events gce E w c) = [] ∧
      observations (events gce E w c) = []) ∧
    (c.nilPayload = false →
      ∃ rc reply rest, events gce E w c =
        Event.acquire (cloud.nextContext E w) :: Event.remote rc reply :: rest ∧
        (rc.op = .Insert ∨ rc.op = .Update)) := by
  obtain ⟨-, -, -, hs⟩ := call_shape gce E w c
  constructor
  · intro hn
    rw [← expectedRemote_eq_none_iff (cloud.nextContext E w)] at hn
    rcases hs with ⟨-, ho, he⟩ | ⟨rc1, p, hn1, -, -⟩ | ⟨rc1, r, hn1, -, -⟩
    · exact ⟨ho, by simp [he, remoteCalls], by simp [he, observations]⟩
    · simp [hn] at hn1
    · simp [hn] at hn1
  · intro hp
    have hop : ∀ rc, c.expectedRemote (cloud.nextContext E w) = some rc →
        (rc.op = .Insert ∨ rc.op = .Update) := by
      intro rc hrc
      rcases c with n | n | n | (_ | bg) | (_ | bg) | (_ | bg) | n | (_ | bg) | (_ | bg) | (_ | bg) | _ <;>
        simp [Call.expectedRemote, Call.takesPayload] at hrc h <;> subst hrc <;>
        simp [RemoteCall.op]
    rcases hs with ⟨hn, -, -⟩ | ⟨rc1, p, hn, -, he⟩ | ⟨rc1, r, hn, -, he⟩
    · rw [expectedRemote_eq_none_iff] at hn
      simp [hn] at hp
    · exact ⟨rc1, _, _, he, hop rc1 hn⟩
    · exact ⟨rc1, _, _, he, hop rc1 hn⟩

/-- C10, witnessed: `UpdateAlphaBackendBucket(nil)` aborts before anything is invoked, and
`CreateBetaBackendBucket` of a bucket reaches the remote `Insert`. -/
theorem C10_nil_payload_aborts_first_witness :
    ((Call.UpdateAlphaBackendBucket none).takesPayload = true ∧
      (Call.UpdateAlphaBackendBucket none).nilPayload = true ∧
      outcome okCloud sampleEnv World.initial (.UpdateAlphaBackendBucket none)
        = .abort .nilDereference ∧
      remoteCalls (events okCloud sampleEnv World.initial (.UpdateAlphaBackendBucket none))
        = [] ∧
      observations (events okCloud sampleEnv World.initial (.UpdateAlphaBackendBucket none))
        = []) ∧
    ((Call.CreateBetaBackendBucket (some sampleBetaBucket)).takesPayload = true ∧
      (Call.CreateBetaBackendBucket (some sampleBetaBucket)).nilPayload = false ∧
      ∃ rc reply rest, events okCloud sampleEnv World.initial
          (.CreateBetaBackendBucket (some sampleBetaBucket)) =
        Event.acquire (cloud.nextContext sampleEnv World.initial) ::
          Event.remote rc reply :: rest ∧
        (rc.op = .Insert ∨ rc.op = .Update)) :=
  ⟨⟨by decide, by decide,
    (C10_nil_payload_aborts_first okCloud sampleEnv World.initial
      (.UpdateAlphaBackendBucket none) (by decide)).1 (by decide)⟩,
   ⟨by decide, by decide,
    (C10_nil_payload_aborts_first okCloud sampleEnv World.initial
      (.CreateBetaBackendBucket (some sampleBetaBucket)) (by decide)).2 (by decide)⟩⟩

end gce
